import Mathlib

/-!
Shallow embedding of `pygmsh/common/geometry.py` (class `CommonGeometry`).

Conventions of the embedding:
* Python floats are modelled as `ℚ` (IEEE-754 doubles are rationals and their
  comparisons are exact rational comparisons); `math.pi` is the exact rational
  value of the double nearest π.
* A method that can raise is modelled as returning `Except PyErr _` together
  with the state it leaves behind (Python assertion failures keep all
  mutations made before the failing statement).
* Calls into the external gmsh engine are recorded as a list of `EngineCall`
  events; what the engine *returns* is passed in as an explicit oracle
  argument (`engine_tag`, `engine_out`) since the engine is outside this
  repository.
-/

set_option autoImplicit false

namespace Pygmsh

/-- Errors a Python method of this file can raise: `AssertionError` (with the
message of the failing `assert`) or `IndexError` from an out-of-range index. -/
inductive PyErr where
  | assertionError (msg : String)
  | indexError
  deriving DecidableEq, Repr

/-- Kind tag for the thin entity classes, used to model `isinstance` checks. -/
inductive EntityKind where
  | point
  | line
  | planeSurface
  | surface
  | volume
  | dummy
  | other
  deriving DecidableEq, Repr

/-- An entity handle as the façade sees it: the fields of the thin entity
classes that `CommonGeometry` reads (`_ID`, `dimension`, `dim_tags`), plus a
kind tag modelling the Python class for `isinstance` checks. -/
structure Entity where
  kind : EntityKind
  dimension : Int
  ID : Int
  dim_tags : List (Int × Int)
  deriving DecidableEq, Repr

/-- A call made against the external gmsh engine, with the exact arguments the
source passes. -/
inductive EngineCall where
  | addPhysicalGroup (dim : Int) (ids : List Int)
  | setPhysicalName (dim : Int) (tag : Int) (name : String)
  | extrude (dim_tags : List (Int × Int)) (ax ay az : ℚ)
      (numElements : List Int) (heights : List ℚ) (recombine : Bool)
  | revolve (dim_tags : List (Int × Int)) (px py pz ax ay az : ℚ) (angle : ℚ)
      (numElements : List Int) (heights : List ℚ) (recombine : Bool)
  | twist (dim_tags : List (Int × Int)) (px py pz tx ty tz rx ry rz : ℚ)
      (angle : ℚ) (numElements : List Int) (heights : List ℚ) (recombine : Bool)
  deriving DecidableEq, Repr

/-- A `label` argument as Python sees it: `None`, an `int`, or a `str`. -/
inductive PyLabel where
  | none
  | int (n : Int)
  | str (s : String)
  deriving DecidableEq, Repr

/-- Python `max` over a list of ints, with the convention of the source that
an empty `_TAKEN_PHYSICALGROUP_IDS` yields `max_id = 0`
(`0 if not self._TAKEN_PHYSICALGROUP_IDS else max(...)`). -/
def maxId : List Int → Int
  | [] => 0
  | x :: xs => xs.foldl max x

/-- Embeds `CommonGeometry._new_physical_group`. The method reads and writes
only `self._TAKEN_PHYSICALGROUP_IDS`, so it is modelled as a function of that
list; it returns the string result together with the list it leaves behind
(unchanged when an assertion fails, since the `assert` precedes the append). -/
def new_physical_group (taken : List Int) (label : PyLabel) :
    Except PyErr String × List Int :=
  let max_id := maxId taken
  match label with
  | .none =>
      -- `if label is None: label = max_id + 1` rebinds the label to an int,
      -- which then takes the `isinstance(label, int)` branch below.
      if max_id + 1 ∈ taken then
        (.error (.assertionError ("Physical group label " ++ toString (max_id + 1) ++ " already taken.")), taken)
      else
        (.ok (toString (max_id + 1)), taken ++ [max_id + 1])
  | .int n =>
      if n ∈ taken then
        (.error (.assertionError ("Physical group label " ++ toString n ++ " already taken.")), taken)
      else
        (.ok (toString n), taken ++ [n])
  | .str s =>
      (.ok ("\"" ++ s ++ "\""), taken ++ [max_id + 1])

/-- The `entities` argument of `add_physical`: a single entity or a list. -/
inductive EntityArg where
  | one (e : Entity)
  | list (l : List Entity)
  deriving DecidableEq, Repr

/-- The first statement of `add_physical`:
`if not isinstance(entities, list): entities = [entities]`. -/
def entityList : EntityArg → List Entity
  | .one e => [e]
  | .list l => l

/-- Embeds `CommonGeometry.add_physical`. `engine_tag` is the tag the engine
returns from `addPhysicalGroup`. Besides the result it returns the
`_TAKEN_PHYSICALGROUP_IDS` list it leaves behind and the engine calls made. -/
def add_physical (taken : List Int) (entities : EntityArg) (label : PyLabel)
    (engine_tag : Int) : Except PyErr Unit × List Int × List EngineCall :=
  let entities := entityList entities
  -- `dim = entities[0].dimension` (IndexError on an empty list)
  match entities with
  | [] => (.error .indexError, taken, [])
  | e0 :: _ =>
    let dim := e0.dimension
    -- `for e in entities: assert e.dimension == dim`
    if entities.all (fun e => e.dimension = dim) then
      match new_physical_group taken label with
      | (.error err, taken1) => (.error err, taken1, [])
      | (.ok lbl, taken1) =>
        let calls := [EngineCall.addPhysicalGroup dim (entities.map (fun e => e.ID))]
        -- `if label is not None:` — the local `label` was rebound to the string
        -- returned by `_new_physical_group`, so the test is against `some lbl`.
        match (some lbl : Option String) with
        | some l => (.ok (), taken1, calls ++ [EngineCall.setPhysicalName dim engine_tag l])
        | none => (.ok (), taken1, calls)
    else
      (.error (.assertionError "e.dimension == dim"), taken, [])

/-- The mutable fields `CommonGeometry.__init__` creates. `AFTER_SYNC_QUEUE`
and `SIZE_QUEUE` hold data this file's methods never build, so their element
types are left opaque as `Unit`. -/
structure GeoState where
  BOOLEAN_ID : Int
  ARRAY_ID : Int
  FIELD_ID : Int
  TAKEN_PHYSICALGROUP_IDS : List Int
  COMPOUND_ENTITIES : List (List (Int × Int))
  RECOMBINE_ENTITIES : List (Int × Int)
  EMBED_QUEUE : List (Entity × Entity)
  TRANSFINITE_CURVE_QUEUE : List (Int × Int × String × ℚ)
  TRANSFINITE_SURFACE_QUEUE : List (Int × String × List Int)
  AFTER_SYNC_QUEUE : List Unit
  SIZE_QUEUE : List Unit
  deriving DecidableEq, Repr

/-- Embeds `CommonGeometry.set_transfinite_curve`: asserts the mesh type and
appends one tuple to `_TRANSFINITE_CURVE_QUEUE`. Returns the result, the
state left behind and the engine calls made (none). -/
def set_transfinite_curve (st : GeoState) (curve : Entity) (num_nodes : Int)
    (mesh_type : String) (coeff : ℚ) : Except PyErr Unit × GeoState × List EngineCall :=
  if mesh_type ∈ (["Progression", "Bulk"] : List String) then
    (.ok (), { st with TRANSFINITE_CURVE_QUEUE :=
      st.TRANSFINITE_CURVE_QUEUE ++ [(curve.ID, num_nodes, mesh_type, coeff)] }, [])
  else
    (.error (.assertionError "mesh_type in Progression Bulk"), st, [])

/-- Embeds `CommonGeometry.set_transfinite_surface`: appends one tuple to
`_TRANSFINITE_SURFACE_QUEUE`. -/
def set_transfinite_surface (st : GeoState) (surface : Entity)
    (arrangement : String) (corner_tags : List Int) :
    Except PyErr Unit × GeoState × List EngineCall :=
  (.ok (), { st with TRANSFINITE_SURFACE_QUEUE :=
    st.TRANSFINITE_SURFACE_QUEUE ++ [(surface.ID, arrangement, corner_tags)] }, [])

/-- Embeds `CommonGeometry.in_surface`: appends the pair to `_EMBED_QUEUE`. -/
def in_surface (st : GeoState) (input_entity : Entity) (surface : Entity) :
    Except PyErr Unit × GeoState × List EngineCall :=
  (.ok (), { st with EMBED_QUEUE := st.EMBED_QUEUE ++ [(input_entity, surface)] }, [])

/-- Embeds `CommonGeometry.in_volume`: appends the pair to `_EMBED_QUEUE`. -/
def in_volume (st : GeoState) (input_entity : Entity) (volume : Entity) :
    Except PyErr Unit × GeoState × List EngineCall :=
  (.ok (), { st with EMBED_QUEUE := st.EMBED_QUEUE ++ [(input_entity, volume)] }, [])

/-- The list comprehension `[s.dim_tags[0] for s in surfaces]`; `IndexError`
when some entity has empty `dim_tags`. -/
def firstDimTags : List Entity → Except PyErr (List (Int × Int))
  | [] => .ok []
  | s :: rest =>
    match s.dim_tags with
    | [] => .error .indexError
    | t :: _ => (firstDimTags rest).map (fun l => t :: l)

/-- Embeds `CommonGeometry.set_recombined_surfaces`: asserts every item is a
`PlaneSurface` or `Surface` (modelled by the kind tag), then extends
`_RECOMBINE_ENTITIES` by each surface's first dim tag, in order. -/
def set_recombined_surfaces (st : GeoState) (surfaces : List Entity) :
    Except PyErr Unit × GeoState × List EngineCall :=
  if surfaces.all (fun s => s.kind = .planeSurface ∨ s.kind = .surface) then
    match firstDimTags surfaces with
    | .error e => (.error e, st, [])
    | .ok tags =>
      (.ok (), { st with RECOMBINE_ENTITIES := st.RECOMBINE_ENTITIES ++ tags }, [])
  else
    (.error (.assertionError "item is not a surface"), st, [])

theorem math_pi_num_den_coprime : Nat.Coprime 884279719003555 281474976710656 := by
  have h2 : (281474976710656 : ℕ) = 2 ^ 48 := by norm_num
  rw [h2]
  exact Nat.Coprime.pow_right _ (Nat.coprime_two_right.mpr (Nat.odd_iff.mpr rfl))

/-- The exact rational value of the IEEE-754 double `math.pi`
(3.141592653589793115997963468544185161590576171875 = 884279719003555 / 2^48),
written in reduced form so that comparisons against it compute. -/
def math_pi : ℚ := ⟨884279719003555, 281474976710656, by norm_num, math_pi_num_den_coprime⟩

theorem math_pi_eq_div : math_pi = 884279719003555 / 281474976710656 := by
  rw [math_pi, Rat.mk'_eq_divInt, Rat.divInt_eq_div]
  norm_num

/-- The `num_layers` argument as Python sees it: `None`, an `int`, or a list. -/
inductive NumLayers where
  | none
  | int (n : Int)
  | list (l : List Int)
  deriving DecidableEq, Repr

/-- The `num_layers`/`heights` reshaping block that `extrude`, `revolve` and
`twist` repeat verbatim: an int `num_layers` becomes a singleton list; a
`None` `num_layers` forces both lists empty; otherwise a `None` `heights`
becomes empty and given lists must have equal lengths. -/
def resolve_layers (num_layers : NumLayers) (heights : Option (List ℚ)) :
    Except PyErr (List Int × List ℚ) :=
  match num_layers with
  | .none => .ok ([], [])
  | .int n =>
    match heights with
    | none => .ok ([n], [])
    | some hs =>
      if ([n] : List Int).length = hs.length then .ok ([n], hs)
      else .error (.assertionError "len(num_layers) == len(heights)")
  | .list l =>
    match heights with
    | none => .ok (l, [])
    | some hs =>
      if l.length = hs.length then .ok (l, hs)
      else .error (.assertionError "len(num_layers) == len(heights)")

/-- Modelled from the spec: the `Dummy` entity class is not under `src/`; per
the spec it is a thin wrapper storing the (dim, tag) pair the engine
returned (`Dummy(*out_dim_tags[i])`). -/
structure Dummy where
  dim : Int
  tag : Int
  deriving DecidableEq, Repr

/-- Wrap each engine-returned dim tag beyond the first two (`out_dim_tags[2:]`). -/
def wrapLateral (l : List (Int × Int)) : List Dummy :=
  l.map (fun e => ⟨e.1, e.2⟩)

/-- Embeds `CommonGeometry.extrude`. `engine_out` is the `out_dim_tags` list
the engine returns; indexing `out_dim_tags[0]`/`[1]` raises `IndexError` when
it is too short. Returns the (top, extruded, lateral) triple and the engine
calls made. -/
def extrude (input_entity : Entity) (translation_axis : ℚ × ℚ × ℚ)
    (num_layers : NumLayers) (heights : Option (List ℚ)) (recombine : Bool)
    (engine_out : List (Int × Int)) :
    Except PyErr (Dummy × Dummy × List Dummy) × List EngineCall :=
  match resolve_layers num_layers heights with
  | .error e => (.error e, [])
  | .ok (nl, hs) =>
    let call := EngineCall.extrude input_entity.dim_tags
      translation_axis.1 translation_axis.2.1 translation_axis.2.2 nl hs recombine
    match engine_out with
    | t0 :: t1 :: rest =>
      (.ok (⟨t0.1, t0.2⟩, ⟨t1.1, t1.2⟩, wrapLateral rest), [call])
    | _ => (.error .indexError, [call])

/-- Embeds `CommonGeometry.revolve`: the same reshaping as `extrude`, then
`assert angle < math.pi`, then the engine call. -/
def revolve (input_entity : Entity) (rotation_axis point_on_axis : ℚ × ℚ × ℚ)
    (angle : ℚ) (num_layers : NumLayers) (heights : Option (List ℚ))
    (recombine : Bool) (engine_out : List (Int × Int)) :
    Except PyErr (Dummy × Dummy × List Dummy) × List EngineCall :=
  match resolve_layers num_layers heights with
  | .error e => (.error e, [])
  | .ok (nl, hs) =>
    if angle < math_pi then
      let call := EngineCall.revolve input_entity.dim_tags
        point_on_axis.1 point_on_axis.2.1 point_on_axis.2.2
        rotation_axis.1 rotation_axis.2.1 rotation_axis.2.2 angle nl hs recombine
      match engine_out with
      | t0 :: t1 :: rest =>
        (.ok (⟨t0.1, t0.2⟩, ⟨t1.1, t1.2⟩, wrapLateral rest), [call])
      | _ => (.error .indexError, [call])
    else
      (.error (.assertionError "angle < math.pi"), [])

/-- Embeds `CommonGeometry.twist`: the same reshaping as `extrude`, then
`assert angle < math.pi`, then the engine call. -/
def twist (input_entity : Entity) (translation_axis rotation_axis point_on_axis : ℚ × ℚ × ℚ)
    (angle : ℚ) (num_layers : NumLayers) (heights : Option (List ℚ))
    (recombine : Bool) (engine_out : List (Int × Int)) :
    Except PyErr (Dummy × Dummy × List Dummy) × List EngineCall :=
  match resolve_layers num_layers heights with
  | .error e => (.error e, [])
  | .ok (nl, hs) =>
    if angle < math_pi then
      let call := EngineCall.twist input_entity.dim_tags
        point_on_axis.1 point_on_axis.2.1 point_on_axis.2.2
        translation_axis.1 translation_axis.2.1 translation_axis.2.2
        rotation_axis.1 rotation_axis.2.1 rotation_axis.2.2 angle nl hs recombine
      match engine_out with
      | t0 :: t1 :: rest =>
        (.ok (⟨t0.1, t0.2⟩, ⟨t1.1, t1.2⟩, wrapLateral rest), [call])
      | _ => (.error .indexError, [call])
    else
      (.error (.assertionError "angle < math.pi"), [])

/-- Modelled from the spec: the `Point` entity class is not under `src/`; per
the spec it wraps one engine call and stores the resulting identifier, here
together with the constructor arguments `add_polygon` passes
(`add_point(x, mesh_size=l)`). -/
structure MPoint where
  x : List ℚ
  mesh_size : Option ℚ
  tag : Int
  deriving DecidableEq, Repr

/-- Modelled from the spec: the `Line` entity class is not under `src/`; per
the spec it wraps one engine call and stores the resulting identifier, here
together with its two endpoint arguments (`add_line(p0, p1)`). -/
structure MLine where
  p0 : MPoint
  p1 : MPoint
  tag : Int
  deriving DecidableEq, Repr

/-- Modelled from the spec: the `CurveLoop` entity class is not under `src/`;
it wraps one engine call over the given curves and stores the identifier. -/
structure MCurveLoop where
  curves : List MLine
  tag : Int
  deriving DecidableEq, Repr

/-- Modelled from the spec: the `PlaneSurface` entity class is not under
`src/`; it wraps one engine call over a curve loop and holes and stores the
identifier. -/
structure MPlaneSurface where
  curve_loop : MCurveLoop
  holes : List Int
  ID : Int
  deriving DecidableEq, Repr

/-- The local `Polygon` class defined inside `add_polygon`, field for field.
`_ID` is only set when a surface exists, so it is an `Option` here; note the
source puts the surface object itself (possibly `None`) into `dim_tags`. -/
structure Polygon where
  points : List MPoint
  lines : List MLine
  num_edges : Nat
  curve_loop : MCurveLoop
  surface : Option MPlaneSurface
  mesh_size : List (Option ℚ)
  ID : Option Int
  dimension : Int
  dim_tags : List (Int × Option MPlaneSurface)
  deriving DecidableEq, Repr

/-- The `mesh_size` argument of `add_polygon` as Python sees it: `None`, a
number, or a list of numbers. -/
inductive MeshSize where
  | none
  | num (q : ℚ)
  | list (l : List ℚ)
  deriving DecidableEq, Repr

/-- The comprehension `[self.add_point(x, mesh_size=l) for x, l in zip(X, mesh_size)]`,
with the engine's returned point tags modelled as consecutive integers from `t`. -/
def mk_points : List (List ℚ × Option ℚ) → Int → List MPoint
  | [], _ => []
  | (x, l) :: rest, t => ⟨x, l, t⟩ :: mk_points rest (t + 1)

/-- The comprehension `[self.add_line(p[k], p[k + 1]) for k in range(len(p) - 1)]`,
with the engine's returned line tags modelled as consecutive integers from `t`. -/
def mk_lines : List MPoint → Int → List MLine
  | p0 :: p1 :: rest, t => ⟨p0, p1, t⟩ :: mk_lines (p1 :: rest) (t + 1)
  | _, _ => []

/-- Embeds `CommonGeometry.add_polygon`. The engine's returned tags are
modelled as consecutive integers (points first, then lines, then the curve
loop, then the surface); the claims below do not depend on the tag values. -/
def add_polygon (X : List (List ℚ)) (mesh_size : MeshSize)
    (holes : Option (List Int)) (make_surface : Bool) : Except PyErr Polygon :=
  -- `if holes is None: holes = [] else: assert make_surface`
  if holes.isSome && !make_surface then .error (.assertionError "make_surface")
  else
  let holesList := (holes.getD [])
  -- `if isinstance(mesh_size, list): assert len(X) == len(mesh_size)
  --  else: mesh_size = len(X) * [mesh_size]`
  match (match mesh_size with
    | .list l =>
      if X.length = l.length then Except.ok (l.map some)
      else Except.error (PyErr.assertionError "len(X) == len(mesh_size)")
    | .none => Except.ok (X.map (fun _ => (none : Option ℚ)))
    | .num q => Except.ok (X.map (fun _ => some q))) with
  | .error e => .error e
  | .ok ms =>
    let p := mk_points (X.zip ms) 0
    -- `lines.append(self.add_line(p[-1], p[0]))` — IndexError when p is empty.
    match p with
    | [] => .error .indexError
    | p0 :: prest =>
      let nPts : Int := ((p0 :: prest).length : Int)
      let lines0 := mk_lines (p0 :: prest) nPts
      let closing : MLine :=
        ⟨(p0 :: prest).getLast (List.cons_ne_nil p0 prest), p0, nPts + (lines0.length : Int)⟩
      let lines := lines0 ++ [closing]
      let ll : MCurveLoop := ⟨lines, 2 * nPts⟩
      let surface : Option MPlaneSurface :=
        if make_surface then some ⟨ll, holesList, 2 * nPts + 1⟩ else none
      .ok { points := p
            lines := lines
            num_edges := lines.length
            curve_loop := ll
            surface := surface
            mesh_size := ms
            ID := surface.map (fun s => s.ID)
            dimension := 2
            dim_tags := [(2, surface)] }

/-- Embeds `CommonGeometry.__init__`: all counters zero, all queues empty. -/
def initGeo : GeoState where
  BOOLEAN_ID := 0
  ARRAY_ID := 0
  FIELD_ID := 0
  TAKEN_PHYSICALGROUP_IDS := []
  COMPOUND_ENTITIES := []
  RECOMBINE_ENTITIES := []
  EMBED_QUEUE := []
  TRANSFINITE_CURVE_QUEUE := []
  TRANSFINITE_SURFACE_QUEUE := []
  AFTER_SYNC_QUEUE := []
  SIZE_QUEUE := []

/-- Does a result carry a Python `AssertionError`? -/
def isAssert {α : Type} : Except PyErr α → Bool
  | .error (.assertionError _) => true
  | _ => false

/-- The label check inside `_new_physical_group` succeeds for this label:
any `None` or string label, or an integer label not already taken. -/
def labelOk (taken : List Int) : PyLabel → Bool
  | .int n => !taken.contains n
  | _ => true

/-- Iterated `_new_physical_group` calls: the `_TAKEN_PHYSICALGROUP_IDS` list
after processing each label in turn (a failed call leaves the list as it was). -/
def run_new_groups (taken : List Int) : List PyLabel → List Int
  | [] => taken
  | lab :: rest => run_new_groups (new_physical_group taken lab).2 rest

/-- Sample entities for the concrete witnesses below. -/
def e2 : Entity := ⟨.dummy, 2, 7, [(2, 7)]⟩

/-- A second dimension-2 sample entity. -/
def e2b : Entity := ⟨.dummy, 2, 8, [(2, 8)]⟩

/-- A dimension-1 sample entity. -/
def e1 : Entity := ⟨.dummy, 1, 9, [(1, 9)]⟩

/-- A sample plane-surface entity. -/
def sPlane : Entity := ⟨.planeSurface, 2, 11, [(2, 11)]⟩

/-! Helper lemmas about `maxId`. -/

theorem le_foldl_max (xs : List Int) (a : Int) : a ≤ xs.foldl max a := by
  induction xs generalizing a with
  | nil => exact le_refl a
  | cons y ys ih => exact le_trans (le_max_left a y) (ih (max a y))

theorem mem_le_foldl_max (xs : List Int) (a x : Int) (hx : x ∈ xs) :
    x ≤ xs.foldl max a := by
  induction xs generalizing a with
  | nil => cases hx
  | cons y ys ih =>
    rcases List.mem_cons.mp hx with h | h
    · subst h
      exact le_trans (le_max_right a x) (le_foldl_max ys (max a x))
    · exact ih (max a y) h

theorem mem_le_maxId (l : List Int) (x : Int) (hx : x ∈ l) : x ≤ maxId l := by
  cases l with
  | nil => cases hx
  | cons y ys =>
    rcases List.mem_cons.mp hx with h | h
    · subst h; exact le_foldl_max ys x
    · exact mem_le_foldl_max ys y x h

theorem maxId_succ_not_mem (l : List Int) : maxId l + 1 ∉ l := by
  intro hmem
  have := mem_le_maxId l (maxId l + 1) hmem
  omega

/-! Characterisation lemmas for `new_physical_group` and `add_physical`. -/

theorem npg_int_mem (taken : List Int) (n : Int) (h : n ∈ taken) :
    new_physical_group taken (.int n) =
      (.error (.assertionError ("Physical group label " ++ toString n ++ " already taken.")), taken) := by
  simp [new_physical_group, h]

theorem npg_int_not_mem (taken : List Int) (n : Int) (h : n ∉ taken) :
    new_physical_group taken (.int n) = (.ok (toString n), taken ++ [n]) := by
  simp [new_physical_group, h]

theorem npg_none_eq (taken : List Int) :
    new_physical_group taken .none =
      (.ok (toString (maxId taken + 1)), taken ++ [maxId taken + 1]) := by
  simp [new_physical_group, maxId_succ_not_mem taken]

theorem npg_str_eq (taken : List Int) (s : String) :
    new_physical_group taken (.str s) =
      (.ok ("\"" ++ s ++ "\""), taken ++ [maxId taken + 1]) := rfl

theorem add_physical_eq (taken : List Int) (entities : EntityArg) (label : PyLabel)
    (tag : Int) (e0 : Entity) (rest : List Entity) (hE : entityList entities = e0 :: rest) :
    add_physical taken entities label tag =
      if (e0 :: rest).all (fun e => e.dimension = e0.dimension) then
        match new_physical_group taken label with
        | (.error err, taken1) => (.error err, taken1, [])
        | (.ok lbl, taken1) =>
          (.ok (), taken1,
           [.addPhysicalGroup e0.dimension ((e0 :: rest).map (fun e => e.ID)),
            .setPhysicalName e0.dimension tag lbl])
      else (.error (.assertionError "e.dimension == dim"), taken, []) := by
  simp only [add_physical, hE]
  split
  · split <;> rfl
  · rfl

/-- C1 is false for string labels: the label "A" is used by a first successful
`add_physical` call, and a second call with the very same string label
succeeds as well instead of failing the assertion. -/
theorem C1_counterexample :
    (add_physical [] (.one e2) (.str "A") 1).1 = .ok () ∧
    (add_physical (add_physical [] (.one e2) (.str "A") 1).2.1 (.one e2) (.str "A") 2).1 = .ok () := by
  constructor <;> rfl

/-- C1 (amended): for every state and nonempty entity argument, an `add_physical`
call whose *integer* label is already in `_TAKEN_PHYSICALGROUP_IDS` fails with
an `AssertionError` and leaves `_TAKEN_PHYSICALGROUP_IDS` unchanged; string
labels are not subject to any duplicate check. -/
theorem C1_amended (taken : List Int) (entities : EntityArg) (n tag : Int)
    (e0 : Entity) (rest : List Entity) (hE : entityList entities = e0 :: rest)
    (hmem : n ∈ taken) :
    (∃ m, (add_physical taken entities (.int n) tag).1 = .error (.assertionError m)) ∧
    (add_physical taken entities (.int n) tag).2.1 = taken := by
  rw [add_physical_eq taken entities (.int n) tag e0 rest hE]
  by_cases hall : (e0 :: rest).all (fun e => e.dimension = e0.dimension)
  · rw [if_pos hall, npg_int_mem taken n hmem]
    exact ⟨⟨_, rfl⟩, rfl⟩
  · rw [if_neg hall]
    exact ⟨⟨_, rfl⟩, rfl⟩

/-- Witness for the amended C1 at a concrete input. -/
theorem C1_amended_witness :
    (entityList (.one e2) = e2 :: [] ∧ (5 : Int) ∈ [(5 : Int)]) ∧
    ((∃ m, (add_physical [5] (.one e2) (.int 5) 1).1 = .error (.assertionError m)) ∧
     (add_physical [5] (.one e2) (.int 5) 1).2.1 = [5]) :=
  ⟨⟨rfl, by decide⟩, C1_amended [5] (.one e2) 5 1 e2 [] rfl (by decide)⟩

theorem new_physical_group_nodup (taken : List Int) (lab : PyLabel) (h : taken.Nodup) :
    ((new_physical_group taken lab).2).Nodup := by
  cases lab with
  | none =>
    rw [npg_none_eq]
    simp [List.nodup_append, h, maxId_succ_not_mem taken]
  | int n =>
    by_cases hm : n ∈ taken
    · rw [npg_int_mem taken n hm]; exact h
    · rw [npg_int_not_mem taken n hm]; simp [List.nodup_append, h, hm]
  | str s =>
    rw [npg_str_eq]
    simp [List.nodup_append, h, maxId_succ_not_mem taken]

theorem run_new_groups_nodup (labels : List PyLabel) (taken : List Int)
    (h : taken.Nodup) : (run_new_groups taken labels).Nodup := by
  induction labels generalizing taken with
  | nil => exact h
  | cons lab rest ih => exact ih _ (new_physical_group_nodup taken lab h)

/-- C8: every element appended by `_new_physical_group` is either the supplied
integer label (absent by the assertion) or `max + 1`, strictly greater than
every taken id; successful runs keep the list duplicate-free; a `None` label
yields the string of a never-taken id; a string label is returned wrapped in
double quotes while consuming `max + 1`. -/
theorem C8_fresh_id_invariant (taken t2 : List Int) (label : PyLabel) (r : String)
    (s : String) (labels : List PyLabel)
    (hnd : taken.Nodup) (hstep : new_physical_group taken label = (.ok r, t2)) :
    (∃ a, t2 = taken ++ [a] ∧ a ∉ taken ∧
      ((∃ n, label = .int n ∧ a = n) ∨ (a = maxId taken + 1 ∧ ∀ x ∈ taken, x < a))) ∧
    (run_new_groups taken labels).Nodup ∧
    new_physical_group taken .none =
      (.ok (toString (maxId taken + 1)), taken ++ [maxId taken + 1]) ∧
    (maxId taken + 1) ∉ taken ∧
    new_physical_group taken (.str s) =
      (.ok ("\"" ++ s ++ "\""), taken ++ [maxId taken + 1]) := by
  refine ⟨?_, run_new_groups_nodup labels taken hnd, npg_none_eq taken,
    maxId_succ_not_mem taken, npg_str_eq taken s⟩
  have hgt : ∀ x ∈ taken, x < maxId taken + 1 := by
    intro x hx
    have := mem_le_maxId taken x hx
    omega
  cases label with
  | none =>
    rw [npg_none_eq] at hstep
    have ht2 : taken ++ [maxId taken + 1] = t2 := congrArg Prod.snd hstep
    exact ⟨maxId taken + 1, ht2.symm, maxId_succ_not_mem taken, Or.inr ⟨rfl, hgt⟩⟩
  | int n =>
    by_cases hm : n ∈ taken
    · rw [npg_int_mem taken n hm] at hstep
      exact absurd (congrArg Prod.fst hstep) (by simp)
    · rw [npg_int_not_mem taken n hm] at hstep
      have ht2 : taken ++ [n] = t2 := congrArg Prod.snd hstep
      exact ⟨n, ht2.symm, hm, Or.inl ⟨n, rfl, rfl⟩⟩
  | str s2 =>
    rw [npg_str_eq] at hstep
    have ht2 : taken ++ [maxId taken + 1] = t2 := congrArg Prod.snd hstep
    exact ⟨maxId taken + 1, ht2.symm, maxId_succ_not_mem taken, Or.inr ⟨rfl, hgt⟩⟩

/-- Witness for C8 at a concrete input. -/
theorem C8_fresh_id_invariant_witness :
    (List.Nodup ([] : List Int) ∧
     new_physical_group [] .none = (.ok "1", [1])) ∧
    ((∃ a, [1] = ([] : List Int) ++ [a] ∧ a ∉ ([] : List Int) ∧
      ((∃ n, PyLabel.none = .int n ∧ a = n) ∨
       (a = maxId [] + 1 ∧ ∀ x ∈ ([] : List Int), x < a))) ∧
    (run_new_groups [] [.none, .str "x", .int 7]).Nodup ∧
    new_physical_group [] .none = (.ok (toString (maxId [] + 1)), [] ++ [maxId [] + 1]) ∧
    (maxId [] + 1) ∉ ([] : List Int) ∧
    new_physical_group [] (.str "a") =
      (.ok ("\"" ++ "a" ++ "\""), [] ++ [maxId [] + 1])) :=
  ⟨⟨by decide, rfl⟩,
   C8_fresh_id_invariant [] [1] .none "1" "a" [.none, .str "x", .int 7] (by decide) rfl⟩

/-- C9: a single non-list entity behaves exactly like the singleton list, and
every successful `add_physical` call makes exactly one `setPhysicalName`
engine call (the label `_new_physical_group` returns is never `None`). -/
theorem C9_single_entity_and_name (taken : List Int) (e : Entity) (label : PyLabel)
    (tag : Int) (entities : EntityArg)
    (hok : (add_physical taken entities label tag).1 = .ok ()) :
    add_physical taken (.one e) label tag = add_physical taken (.list [e]) label tag ∧
    (∃ dim ids name taken1, add_physical taken entities label tag =
      (.ok (), taken1, [.addPhysicalGroup dim ids, .setPhysicalName dim tag name])) := by
  refine ⟨rfl, ?_⟩
  cases hE : entityList entities with
  | nil => simp [add_physical, hE] at hok
  | cons e0 rest =>
    rw [add_physical_eq taken entities label tag e0 rest hE] at hok ⊢
    by_cases hall : (e0 :: rest).all (fun e => e.dimension = e0.dimension)
    · rw [if_pos hall] at hok ⊢
      cases hnp : new_physical_group taken label with
      | mk res taken1 =>
        cases res with
        | error err => rw [hnp] at hok; simp at hok
        | ok lbl =>
          exact ⟨e0.dimension, (e0 :: rest).map (fun e => e.ID), lbl, taken1, rfl⟩
    · rw [if_neg hall] at hok
      simp at hok

/-- Witness for C9 at a concrete input. -/
theorem C9_single_entity_and_name_witness :
    ((add_physical [] (.list [e2]) .none 1).1 = .ok ()) ∧
    (add_physical [] (.one e2) .none 1 = add_physical [] (.list [e2]) .none 1 ∧
     (∃ dim ids name taken1, add_physical [] (.list [e2]) .none 1 =
      (.ok (), taken1, [.addPhysicalGroup dim ids, .setPhysicalName dim 1 name]))) :=
  ⟨rfl, C9_single_entity_and_name [] e2 .none 1 (.list [e2]) rfl⟩

theorem exists_two_of_le_length {α : Type} (xs : List α) (h : 2 ≤ xs.length) :
    ∃ a b l, xs = a :: b :: l := by
  rcases xs with _ | ⟨a, _ | ⟨b, l⟩⟩
  · simp at h
  · simp at h
  · exact ⟨a, b, l, rfl⟩

/-- C2: with the default `num_layers`/`heights`, a `revolve` or `twist` call
raises an `AssertionError` exactly when `angle ≥ math.pi` (any smaller angle,
negative ones included, passes), and when `angle < math.pi` the engine call is
made. -/
theorem C2_angle_guard (input : Entity) (t r p : ℚ × ℚ × ℚ) (angle : ℚ)
    (rec : Bool) (out : List (Int × Int)) (hout : 2 ≤ out.length) :
    (isAssert (revolve input r p angle .none none rec out).1 = true ↔ math_pi ≤ angle) ∧
    (angle < math_pi → (revolve input r p angle .none none rec out).2 =
      [.revolve input.dim_tags p.1 p.2.1 p.2.2 r.1 r.2.1 r.2.2 angle [] [] rec]) ∧
    (isAssert (twist input t r p angle .none none rec out).1 = true ↔ math_pi ≤ angle) ∧
    (angle < math_pi → (twist input t r p angle .none none rec out).2 =
      [.twist input.dim_tags p.1 p.2.1 p.2.2 t.1 t.2.1 t.2.2 r.1 r.2.1 r.2.2 angle [] [] rec]) := by
  obtain ⟨t0, t1, rest, rfl⟩ := exists_two_of_le_length out hout
  by_cases h : angle < math_pi
  · simp [revolve, twist, resolve_layers, isAssert, h, not_le.mpr h]
  · simp [revolve, twist, resolve_layers, isAssert, h, not_lt.mp h]

/-- Witness for C2 at a concrete input. -/
theorem C2_angle_guard_witness :
    (2 ≤ ([((3 : Int), (1 : Int)), (3, 2)] : List (Int × Int)).length) ∧
    ((isAssert (revolve e2 (0, 0, 1) (0, 0, 0) 0 .none none false [(3, 1), (3, 2)]).1 = true ↔
        math_pi ≤ 0) ∧
     ((0 : ℚ) < math_pi → (revolve e2 (0, 0, 1) (0, 0, 0) 0 .none none false [(3, 1), (3, 2)]).2 =
        [.revolve e2.dim_tags 0 0 0 0 0 1 0 [] [] false]) ∧
     (isAssert (twist e2 (0, 0, 0) (0, 0, 1) (0, 0, 0) 0 .none none false [(3, 1), (3, 2)]).1 = true ↔
        math_pi ≤ 0) ∧
     ((0 : ℚ) < math_pi → (twist e2 (0, 0, 0) (0, 0, 1) (0, 0, 0) 0 .none none false [(3, 1), (3, 2)]).2 =
        [.twist e2.dim_tags 0 0 0 0 0 0 0 0 1 0 [] [] false])) :=
  ⟨by decide, C2_angle_guard e2 (0, 0, 0) (0, 0, 1) (0, 0, 0) 0 false [(3, 1), (3, 2)] (by decide)⟩

/-- C3: mismatched parallel list lengths raise an `AssertionError`: in
`extrude`, `revolve` and `twist` when `num_layers` and `heights` are both
given with different lengths, and in `add_polygon` when `mesh_size` is a list
whose length differs from `len(X)`. -/
theorem C3_length_guards (input : Entity) (t r p : ℚ × ℚ × ℚ) (angle : ℚ)
    (rec : Bool) (out : List (Int × Int)) (l : List Int) (hs : List ℚ)
    (X : List (List ℚ)) (ms : List ℚ)
    (hlen : l.length ≠ hs.length) (hX : X.length ≠ ms.length) :
    (extrude input t (.list l) (some hs) rec out).1 =
      .error (.assertionError "len(num_layers) == len(heights)") ∧
    (revolve input r p angle (.list l) (some hs) rec out).1 =
      .error (.assertionError "len(num_layers) == len(heights)") ∧
    (twist input t r p angle (.list l) (some hs) rec out).1 =
      .error (.assertionError "len(num_layers) == len(heights)") ∧
    add_polygon X (.list ms) none true =
      .error (.assertionError "len(X) == len(mesh_size)") := by
  simp [extrude, revolve, twist, resolve_layers, add_polygon, hlen, hX]

/-- Witness for C3 at a concrete input. -/
theorem C3_length_guards_witness :
    (([(1 : Int)] : List Int).length ≠ ([] : List ℚ).length ∧
     ([[(0 : ℚ)]] : List (List ℚ)).length ≠ ([] : List ℚ).length) ∧
    ((extrude e2 (0, 0, 1) (.list [1]) (some []) false []).1 =
      .error (.assertionError "len(num_layers) == len(heights)") ∧
     (revolve e2 (0, 0, 1) (0, 0, 0) 0 (.list [1]) (some []) false []).1 =
      .error (.assertionError "len(num_layers) == len(heights)") ∧
     (twist e2 (0, 0, 1) (0, 0, 1) (0, 0, 0) 0 (.list [1]) (some []) false []).1 =
      .error (.assertionError "len(num_layers) == len(heights)") ∧
     add_polygon [[(0 : ℚ)]] (.list []) none true =
      .error (.assertionError "len(X) == len(mesh_size)")) :=
  ⟨⟨by decide, by decide⟩,
   C3_length_guards e2 (0, 0, 1) (0, 0, 1) (0, 0, 0) 0 false [] [1] [] [[0]] []
     (by decide) (by decide)⟩

/-- C4: the engine receives the reshaped `numElements`/`heights` arguments:
`None` `num_layers` yields `[]`/`[]` regardless of `heights`; an int `n`
yields `[n]`; a given `num_layers` with `None` `heights` yields `[]` heights.
Holds for `extrude`, `revolve` and `twist` (the latter two provided the angle
assertion passes). -/
theorem C4_reshaping (input : Entity) (t r p : ℚ × ℚ × ℚ) (angle : ℚ) (rec : Bool)
    (out : List (Int × Int)) (heights : Option (List ℚ)) (n : Int) (l : List Int)
    (hangle : angle < math_pi) :
    ((extrude input t .none heights rec out).2 =
       [.extrude input.dim_tags t.1 t.2.1 t.2.2 [] [] rec] ∧
     (extrude input t (.int n) none rec out).2 =
       [.extrude input.dim_tags t.1 t.2.1 t.2.2 [n] [] rec] ∧
     (extrude input t (.list l) none rec out).2 =
       [.extrude input.dim_tags t.1 t.2.1 t.2.2 l [] rec]) ∧
    ((revolve input r p angle .none heights rec out).2 =
       [.revolve input.dim_tags p.1 p.2.1 p.2.2 r.1 r.2.1 r.2.2 angle [] [] rec] ∧
     (revolve input r p angle (.int n) none rec out).2 =
       [.revolve input.dim_tags p.1 p.2.1 p.2.2 r.1 r.2.1 r.2.2 angle [n] [] rec] ∧
     (revolve input r p angle (.list l) none rec out).2 =
       [.revolve input.dim_tags p.1 p.2.1 p.2.2 r.1 r.2.1 r.2.2 angle l [] rec]) ∧
    ((twist input t r p angle .none heights rec out).2 =
       [.twist input.dim_tags p.1 p.2.1 p.2.2 t.1 t.2.1 t.2.2 r.1 r.2.1 r.2.2 angle [] [] rec] ∧
     (twist input t r p angle (.int n) none rec out).2 =
       [.twist input.dim_tags p.1 p.2.1 p.2.2 t.1 t.2.1 t.2.2 r.1 r.2.1 r.2.2 angle [n] [] rec] ∧
     (twist input t r p angle (.list l) none rec out).2 =
       [.twist input.dim_tags p.1 p.2.1 p.2.2 t.1 t.2.1 t.2.2 r.1 r.2.1 r.2.2 angle l [] rec]) := by
  rcases out with _ | ⟨a, _ | ⟨b, rest⟩⟩ <;>
    simp [extrude, revolve, twist, resolve_layers, hangle]

/-- Witness for C4 at a concrete input. -/
theorem C4_reshaping_witness :
    ((0 : ℚ) < math_pi) ∧
    (((extrude e2 (1, 2, 3) .none (some [5, 6]) true []).2 =
       [.extrude e2.dim_tags 1 2 3 [] [] true] ∧
     (extrude e2 (1, 2, 3) (.int 4) none true []).2 =
       [.extrude e2.dim_tags 1 2 3 [4] [] true] ∧
     (extrude e2 (1, 2, 3) (.list [1, 2]) none true []).2 =
       [.extrude e2.dim_tags 1 2 3 [1, 2] [] true]) ∧
    (((revolve e2 (0, 0, 1) (0, 0, 0) 0 .none (some [5, 6]) true []).2 =
       [.revolve e2.dim_tags 0 0 0 0 0 1 0 [] [] true] ∧
     (revolve e2 (0, 0, 1) (0, 0, 0) 0 (.int 4) none true []).2 =
       [.revolve e2.dim_tags 0 0 0 0 0 1 0 [4] [] true] ∧
     (revolve e2 (0, 0, 1) (0, 0, 0) 0 (.list [1, 2]) none true []).2 =
       [.revolve e2.dim_tags 0 0 0 0 0 1 0 [1, 2] [] true])) ∧
    ((twist e2 (1, 2, 3) (0, 0, 1) (0, 0, 0) 0 .none (some [5, 6]) true []).2 =
       [.twist e2.dim_tags 0 0 0 1 2 3 0 0 1 0 [] [] true] ∧
     (twist e2 (1, 2, 3) (0, 0, 1) (0, 0, 0) 0 (.int 4) none true []).2 =
       [.twist e2.dim_tags 0 0 0 1 2 3 0 0 1 0 [4] [] true] ∧
     (twist e2 (1, 2, 3) (0, 0, 1) (0, 0, 0) 0 (.list [1, 2]) none true []).2 =
       [.twist e2.dim_tags 0 0 0 1 2 3 0 0 1 0 [1, 2] [] true])) :=
  ⟨by decide, C4_reshaping e2 (1, 2, 3) (0, 0, 1) (0, 0, 0) 0 true [] (some [5, 6]) 4 [1, 2]
    (by decide)⟩

/-- C7: given an engine return with at least two dim tags, `extrude`, `revolve`
and `twist` return the triple (top, extruded, lateral) wrapping
`out_dim_tags[0]`, `out_dim_tags[1]` and `out_dim_tags[2:]` in order. -/
theorem C7_returned_wrappers (input : Entity) (t r p : ℚ × ℚ × ℚ) (angle : ℚ)
    (rec : Bool) (t0 t1 : Int × Int) (rest : List (Int × Int))
    (hangle : angle < math_pi) :
    (extrude input t .none none rec (t0 :: t1 :: rest)).1 =
      .ok (⟨t0.1, t0.2⟩, ⟨t1.1, t1.2⟩, rest.map (fun e => (⟨e.1, e.2⟩ : Dummy))) ∧
    (revolve input r p angle .none none rec (t0 :: t1 :: rest)).1 =
      .ok (⟨t0.1, t0.2⟩, ⟨t1.1, t1.2⟩, rest.map (fun e => (⟨e.1, e.2⟩ : Dummy))) ∧
    (twist input t r p angle .none none rec (t0 :: t1 :: rest)).1 =
      .ok (⟨t0.1, t0.2⟩, ⟨t1.1, t1.2⟩, rest.map (fun e => (⟨e.1, e.2⟩ : Dummy))) := by
  simp [extrude, revolve, twist, resolve_layers, wrapLateral, hangle]

/-- Witness for C7 at a concrete input. -/
theorem C7_returned_wrappers_witness :
    ((0 : ℚ) < math_pi) ∧
    ((extrude e2 (1, 2, 3) .none none false ((3, 1) :: (3, 2) :: [(2, 9), (2, 10)])).1 =
      .ok (⟨3, 1⟩, ⟨3, 2⟩, [(2, 9), (2, 10)].map (fun e => (⟨e.1, e.2⟩ : Dummy))) ∧
     (revolve e2 (0, 0, 1) (0, 0, 0) 0 .none none false ((3, 1) :: (3, 2) :: [(2, 9), (2, 10)])).1 =
      .ok (⟨3, 1⟩, ⟨3, 2⟩, [(2, 9), (2, 10)].map (fun e => (⟨e.1, e.2⟩ : Dummy))) ∧
     (twist e2 (1, 2, 3) (0, 0, 1) (0, 0, 0) 0 .none none false ((3, 1) :: (3, 2) :: [(2, 9), (2, 10)])).1 =
      .ok (⟨3, 1⟩, ⟨3, 2⟩, [(2, 9), (2, 10)].map (fun e => (⟨e.1, e.2⟩ : Dummy)))) :=
  ⟨by decide, C7_returned_wrappers e2 (1, 2, 3) (0, 0, 1) (0, 0, 0) 0 false (3, 1) (3, 2)
    [(2, 9), (2, 10)] (by decide)⟩

/-- C5 is false as stated: here the (singleton, hence dimension-homogeneous)
entity list should lead to an `addPhysicalGroup` call, but the already-taken
integer label makes `_new_physical_group` raise first, so no engine call is
made at all. -/
theorem C5_counterexample :
    ((entityList (.list [e2])).all (fun e => e.dimension = e2.dimension) = true) ∧
    (add_physical [5] (.list [e2]) (.int 5) 1).2.2 = [] ∧
    isAssert (add_physical [5] (.list [e2]) (.int 5) 1).1 = true := by
  refine ⟨by decide, by decide, by decide⟩

/-- C5 (amended): a dimension mismatch raises an `AssertionError` with no
engine call made; with homogeneous dimensions *and a label that passes the
`_new_physical_group` check* (`None`, a not-yet-taken integer, or a string),
`addPhysicalGroup` is called exactly once, with the common dimension and the
entity IDs in the order given. -/
theorem C5_amended (taken : List Int) (label : PyLabel) (tag tag2 : Int)
    (e0 f0 : Entity) (rest frest : List Entity)
    (hmis : ¬ ((f0 :: frest).all (fun e => e.dimension = f0.dimension) = true))
    (hdim : (e0 :: rest).all (fun e => e.dimension = e0.dimension) = true)
    (hlab : labelOk taken label = true) :
    ((∃ m, (add_physical taken (.list (f0 :: frest)) label tag2).1 =
        .error (.assertionError m)) ∧
     (add_physical taken (.list (f0 :: frest)) label tag2).2.2 = []) ∧
    (∃ name, (add_physical taken (.list (e0 :: rest)) label tag).2.2 =
      [.addPhysicalGroup e0.dimension ((e0 :: rest).map (fun e => e.ID)),
       .setPhysicalName e0.dimension tag name]) := by
  constructor
  · rw [add_physical_eq taken (.list (f0 :: frest)) label tag2 f0 frest rfl, if_neg hmis]
    exact ⟨⟨_, rfl⟩, rfl⟩
  · rw [add_physical_eq taken (.list (e0 :: rest)) label tag e0 rest rfl, if_pos hdim]
    cases label with
    | none => rw [npg_none_eq]; exact ⟨_, rfl⟩
    | int n =>
      have hn : n ∉ taken := by simpa [labelOk] using hlab
      rw [npg_int_not_mem taken n hn]
      exact ⟨_, rfl⟩
    | str s => rw [npg_str_eq]; exact ⟨_, rfl⟩

/-- Witness for the amended C5 at a concrete input. -/
theorem C5_amended_witness :
    ((¬ ((e2 :: [e1]).all (fun e => e.dimension = e2.dimension) = true)) ∧
     ((e2 :: [e2b]).all (fun e => e.dimension = e2.dimension) = true) ∧
     labelOk [] .none = true) ∧
    (((∃ m, (add_physical [] (.list (e2 :: [e1])) .none 2).1 =
        .error (.assertionError m)) ∧
      (add_physical [] (.list (e2 :: [e1])) .none 2).2.2 = []) ∧
     (∃ name, (add_physical [] (.list (e2 :: [e2b])) .none 1).2.2 =
       [.addPhysicalGroup e2.dimension ((e2 :: [e2b]).map (fun e => e.ID)),
        .setPhysicalName e2.dimension 1 name])) :=
  ⟨⟨by decide, by decide, rfl⟩,
   C5_amended [] .none 1 2 e2 e2 [e2b] [e1] (by decide) (by decide) rfl⟩

/-- C6: each deferred operation makes no engine call and only appends to its
own queue, leaving every other field of the state unchanged;
`set_recombined_surfaces` extends `_RECOMBINE_ENTITIES` by the first dim tag
of each surface, in order. -/
theorem C6_deferred_queue_ops (st : GeoState) (curve surf ent s2 vol : Entity)
    (num_nodes : Int) (mesh_type arrangement : String) (coeff : ℚ)
    (corner_tags : List Int) (surfaces : List Entity) (tags : List (Int × Int))
    (hmt : mesh_type ∈ (["Progression", "Bulk"] : List String))
    (hsk : surfaces.all (fun s => s.kind = .planeSurface ∨ s.kind = .surface) = true)
    (htags : firstDimTags surfaces = .ok tags) :
    set_transfinite_curve st curve num_nodes mesh_type coeff =
      (.ok (), { st with TRANSFINITE_CURVE_QUEUE :=
        st.TRANSFINITE_CURVE_QUEUE ++ [(curve.ID, num_nodes, mesh_type, coeff)] }, []) ∧
    set_transfinite_surface st surf arrangement corner_tags =
      (.ok (), { st with TRANSFINITE_SURFACE_QUEUE :=
        st.TRANSFINITE_SURFACE_QUEUE ++ [(surf.ID, arrangement, corner_tags)] }, []) ∧
    in_surface st ent s2 =
      (.ok (), { st with EMBED_QUEUE := st.EMBED_QUEUE ++ [(ent, s2)] }, []) ∧
    in_volume st ent vol =
      (.ok (), { st with EMBED_QUEUE := st.EMBED_QUEUE ++ [(ent, vol)] }, []) ∧
    set_recombined_surfaces st surfaces =
      (.ok (), { st with RECOMBINE_ENTITIES := st.RECOMBINE_ENTITIES ++ tags }, []) := by
  refine ⟨?_, rfl, rfl, rfl, ?_⟩
  · simp [set_transfinite_curve, hmt]
  · have hsk2 : ∀ s ∈ surfaces, s.kind = .planeSurface ∨ s.kind = .surface := by
      simpa using hsk
    simp [set_recombined_surfaces, htags]
    intro x hx hnp
    exact (hsk2 x hx).resolve_left hnp

/-- Witness for C6 at a concrete input. -/
theorem C6_deferred_queue_ops_witness :
    (("Progression" : String) ∈ (["Progression", "Bulk"] : List String) ∧
     ([sPlane].all (fun s => s.kind = .planeSurface ∨ s.kind = .surface) = true) ∧
     firstDimTags [sPlane] = .ok [(2, 11)]) ∧
    (set_transfinite_curve initGeo e1 10 "Progression" 1 =
      (.ok (), { initGeo with TRANSFINITE_CURVE_QUEUE :=
        initGeo.TRANSFINITE_CURVE_QUEUE ++ [(e1.ID, 10, "Progression", 1)] }, []) ∧
     set_transfinite_surface initGeo sPlane "Left" [1, 2] =
      (.ok (), { initGeo with TRANSFINITE_SURFACE_QUEUE :=
        initGeo.TRANSFINITE_SURFACE_QUEUE ++ [(sPlane.ID, "Left", [1, 2])] }, []) ∧
     in_surface initGeo e1 sPlane =
      (.ok (), { initGeo with EMBED_QUEUE := initGeo.EMBED_QUEUE ++ [(e1, sPlane)] }, []) ∧
     in_volume initGeo e1 e2 =
      (.ok (), { initGeo with EMBED_QUEUE := initGeo.EMBED_QUEUE ++ [(e1, e2)] }, []) ∧
     set_recombined_surfaces initGeo [sPlane] =
      (.ok (), { initGeo with RECOMBINE_ENTITIES :=
        initGeo.RECOMBINE_ENTITIES ++ [(2, 11)] }, [])) :=
  ⟨⟨by decide, by decide, rfl⟩,
   C6_deferred_queue_ops initGeo e1 sPlane e1 sPlane e2 10 "Progression" "Left" 1 [1, 2]
     [sPlane] [(2, 11)] (by decide) (by decide) rfl⟩

/-! Structural lemmas for `add_polygon`. -/

theorem mk_points_length (l : List (List ℚ × Option ℚ)) (t : Int) :
    (mk_points l t).length = l.length := by
  induction l generalizing t with
  | nil => rfl
  | cons x xs ih =>
    cases x with
    | mk a b => simp [mk_points, ih]

theorem mk_lines_length (p : List MPoint) (t : Int) :
    (mk_lines p t).length = p.length - 1 := by
  induction p generalizing t with
  | nil => rfl
  | cons a rest ih =>
    cases rest with
    | nil => rfl
    | cons b rs =>
      simp only [mk_lines, List.length_cons, ih (t + 1)]
      omega

theorem mk_lines_get (p : List MPoint) (t : Int) (k : Nat) (hk : k + 1 < p.length) :
    ∃ a b, p.get? k = some a ∧ p.get? (k + 1) = some b ∧
      (mk_lines p t).get? k = some ⟨a, b, t + k⟩ := by
  induction p generalizing t k with
  | nil => simp at hk
  | cons x rest ih =>
    cases rest with
    | nil => simp at hk
    | cons y rs =>
      cases k with
      | zero =>
        refine ⟨x, y, rfl, rfl, ?_⟩
        simp [mk_lines]
      | succ k =>
        have hk2 : k + 1 < (y :: rs).length := by
          simp only [List.length_cons] at hk ⊢
          omega
        obtain ⟨a, b, h1, h2, h3⟩ := ih (t + 1) k hk2
        refine ⟨a, b, by simpa using h1, by simpa using h2, ?_⟩
        simp only [mk_lines, List.get?_cons_succ, h3, Option.some.injEq, MLine.mk.injEq,
          true_and]
        omega

theorem get?_length_eq_getLast (p0 : MPoint) (prest : List MPoint)
    (h : (p0 :: prest) ≠ []) :
    (p0 :: prest).get? prest.length = some ((p0 :: prest).getLast h) := by
  induction prest generalizing p0 with
  | nil => rfl
  | cons q qs ih =>
    rw [List.length_cons, List.get?_cons_succ, List.getLast_cons (List.cons_ne_nil q qs)]
    exact ih q (List.cons_ne_nil q qs)

/-- The shape C10 claims of the polygon built from `X` with the default
`mesh_size` and `holes`: one point and one line per vertex, line `k` joining
point `k` to point `k+1`, the last line closing back to point `0`,
`num_edges = len X`, `dimension = 2`, and no surface when `make_surface` is
false. -/
def polygon_spec (X : List (List ℚ)) (make_surface : Bool) : Prop :=
  ∃ P, add_polygon X .none none make_surface = .ok P ∧
    P.points.length = X.length ∧
    P.lines.length = X.length ∧
    (∀ k, k + 1 < X.length →
      ∃ a c ln, P.points.get? k = some a ∧ P.points.get? (k + 1) = some c ∧
        P.lines.get? k = some ln ∧ ln.p0 = a ∧ ln.p1 = c) ∧
    (∃ a c ln, P.points.get? (X.length - 1) = some a ∧ P.points.get? 0 = some c ∧
      P.lines.get? (X.length - 1) = some ln ∧ ln.p0 = a ∧ ln.p1 = c) ∧
    P.num_edges = X.length ∧
    P.dimension = 2 ∧
    (make_surface = false → P.surface = none)

/-- C10: for every vertex list with at least two vertices, `add_polygon`
builds `len X` points and `len X` lines chained consecutively and closed back
to the first point, with `num_edges = len X`, `dimension = 2`, surface `None`
when `make_surface` is false, and a non-`None` `holes` argument together with
`make_surface=False` raises an `AssertionError`. -/
theorem C10_add_polygon (X : List (List ℚ)) (hl : List Int) (hX : 2 ≤ X.length) :
    (∀ mks, polygon_spec X mks) ∧
    add_polygon X .none (some hl) false = .error (.assertionError "make_surface") := by
  constructor
  · intro mks
    have hplen : (mk_points (X.zip (X.map (fun _ => (none : Option ℚ)))) 0).length
        = X.length := by
      rw [mk_points_length]
      simp
    obtain ⟨p0, prest, hp⟩ : ∃ p0 prest,
        mk_points (X.zip (X.map (fun _ => (none : Option ℚ)))) 0 = p0 :: prest := by
      rcases hq : mk_points (X.zip (X.map (fun _ => (none : Option ℚ)))) 0 with _ | ⟨a, l⟩
      · rw [hq] at hplen
        simp at hplen
        omega
      · exact ⟨a, l, rfl⟩
    have hpl : (p0 :: prest).length = X.length := by rw [← hp, hplen]
    have hll : (mk_lines (p0 :: prest) ((p0 :: prest).length : Int)).length
        = prest.length := by
      rw [mk_lines_length]
      simp
    simp only [polygon_spec, add_polygon, hp]
    refine ⟨_, rfl, ?_, ?_, ?_, ?_, ?_, rfl, ?_⟩
    · exact hpl
    · simp only [List.length_append, List.length_singleton, hll]
      simp only [List.length_cons] at hpl
      omega
    · intro k hk
      have hk2 : k + 1 < (p0 :: prest).length := by rw [hpl]; exact hk
      obtain ⟨a, b, h1, h2, h3⟩ :=
        mk_lines_get (p0 :: prest) ((p0 :: prest).length : Int) k hk2
      have hkl : k < (mk_lines (p0 :: prest) ((p0 :: prest).length : Int)).length := by
        rw [hll]
        simp only [List.length_cons] at hk2
        omega
      refine ⟨a, b, ⟨a, b, ((p0 :: prest).length : Int) + k⟩, h1, h2, ?_, rfl, rfl⟩
      dsimp only
      rw [List.get?_append hkl]
      exact h3
    · refine ⟨(p0 :: prest).getLast (List.cons_ne_nil p0 prest), p0,
        ⟨(p0 :: prest).getLast (List.cons_ne_nil p0 prest), p0,
         ((p0 :: prest).length : Int) +
           ((mk_lines (p0 :: prest) ((p0 :: prest).length : Int)).length : Int)⟩,
        ?_, rfl, ?_, rfl, rfl⟩
      · have hidx : X.length - 1 = prest.length := by
          simp only [List.length_cons] at hpl
          omega
        dsimp only
        rw [hidx]
        exact get?_length_eq_getLast p0 prest (List.cons_ne_nil p0 prest)
      · have hidx : X.length - 1 =
            (mk_lines (p0 :: prest) ((p0 :: prest).length : Int)).length := by
          rw [hll]
          simp only [List.length_cons] at hpl
          omega
        dsimp only
        rw [hidx, List.get?_concat_length]
    · simp only [List.length_append, List.length_singleton, hll]
      simp only [List.length_cons] at hpl
      omega
    · intro hmks
      subst hmks
      rfl
  · rfl

/-- Witness for C10 at a concrete input. -/
theorem C10_add_polygon_witness :
    (2 ≤ ([[0, 0], [1, 0], [0, 1]] : List (List ℚ)).length) ∧
    ((∀ mks, polygon_spec [[0, 0], [1, 0], [0, 1]] mks) ∧
     add_polygon [[0, 0], [1, 0], [0, 1]] .none (some [4]) false =
       .error (.assertionError "make_surface")) :=
  ⟨by decide, C10_add_polygon [[0, 0], [1, 0], [0, 1]] [4] (by decide)⟩

end Pygmsh
